import Mathlib

/-!
Shallow embedding of the bluebard house_audio core:
  * `AudioInterface` (src/house_audio/interfaces/audio.py): routing engine
    state (`outputs`, `routes`, `volumes`) plus a model of the external
    PipeWire link set (`backend`, driven by the pw-link invocations the
    code makes; subprocess invocation itself is modelled as available,
    matching the code, which never checks pw-link exit codes).
  * `PTPSync` (src/house_audio/sync.py): master election and offset
    sampling as pure functions of the received datagrams.
  * `NodeManager` (src/house_audio/node_manager.py): the Bluetooth
    connect/disconnect workflow and the Bluetooth signal monitor.
  * `BluetoothInterface.get_status` (src/house_audio/interfaces/bluetooth.py):
    signal-quality classification.

Python dicts are embedded as association lists in insertion order
(`alGet`/`alSet` mirror `d[k]` and `d[k] = v`: update in place, insert at
the end), since the code iterates dicts (`next(rid for rid in self.routes ...)`)
relying on that order.  Floating point times/volumes are embedded as `ℚ`.
-/

/-- Association-list lookup, mirroring Python `d.get(k)`. -/
def alGet {β : Type} (l : List (String × β)) (k : String) : Option β :=
  match l with
  | [] => none
  | (k0, v0) :: rest => if k0 = k then some v0 else alGet rest k

/-- Association-list update, mirroring Python `d[k] = v`: replaces in place
if the key is present, appends otherwise (dict insertion order). -/
def alSet {β : Type} (l : List (String × β)) (k : String) (v : β) :
    List (String × β) :=
  match l with
  | [] => [(k, v)]
  | (k0, v0) :: rest =>
      if k0 = k then (k, v) :: rest else (k0, v0) :: alSet rest k v

/-- Python `s.startswith(pfx)`, embedded on the character data. -/
def strStarts (s pfx : String) : Bool :=
  pfx.data.isPrefixOf s.data

/-- The FL link string built by `create_route`/`add_output_to_route`
(audio.py lines 134, 276). -/
def linkFL (source target : String) : String :=
  "bluez_source." ++ source ++ ":monitor_FL -> " ++ target ++ ":playback_FL"

/-- The FR link string built by `create_route`/`add_output_to_route`
(audio.py lines 146-148, 277). -/
def linkFR (source target : String) : String :=
  "bluez_source." ++ source ++ ":monitor_FR -> " ++ target ++ ":playback_FR"

/-- A recorded route, the per-route dict stored in `self.routes`
(audio.py lines 157-162). -/
structure Route where
  source : String
  outputs : List String
  links : List String
  is_mono : Bool
deriving DecidableEq

/-- Errors raised by the audio interface (Python `ValueError`s at
audio.py lines 113, 246, 288). -/
inductive AudioErr
| unknownOutput (target : String)
| noRouteForSource (source : String)
| invalidVolume
deriving DecidableEq

/-- State of an `AudioInterface` object together with the external
PipeWire link set its pw-link calls act on.  An output device is stored
with its channel count; `discover_devices` (audio.py line 79) derives
`is_mono` as `channels == 1`, and `self.outputs` is written nowhere else,
so `create_route` reading `is_mono` is reading `channels == 1`. -/
structure AudioState where
  outputs : List (String × Nat)
  routes : List (String × Route)
  volumes : List (String × ℚ)
  backend : List String
deriving DecidableEq

/-- A pw-link invocation: PipeWire creates the link unless it already
exists (the code ignores the exit code either way). -/
def addLink (backend : List String) (l : String) : List String :=
  if l ∈ backend then backend else backend ++ [l]

/-- `_remove_route_links` (audio.py lines 223-238): a `pw-link -d` per
recorded link; on the link set this removes every listed link. -/
def removeLinks (backend : List String) (links : List String) : List String :=
  backend.filter (fun l => ¬ links.contains l)

/-- `AudioInterface.create_route` (audio.py lines 109-168).  Unknown
target raises `ValueError` before any mutation; otherwise an FL link is
made unconditionally and an FR link only when the target is not mono,
and the route is recorded under `source ++ "->" ++ target`. -/
def create_route (s : AudioState) (source target : String) :
    Except AudioErr String × AudioState :=
  match alGet s.outputs target with
  | none => (.error (.unknownOutput target), s)
  | some channels =>
      let route_id := source ++ "->" ++ target
      let is_mono := channels == 1
      let links :=
        if is_mono then [linkFL source target]
        else [linkFL source target, linkFR source target]
      (.ok route_id,
        { s with
          backend := links.foldl addLink s.backend
          routes := alSet s.routes route_id
            ⟨source, [target], links, is_mono⟩ })

/-- `AudioInterface.verify_route` (audio.py lines 170-196): false for an
unknown route id, otherwise true iff every recorded link is present in
the backend link listing (`pw-link -l`). -/
def verify_route (s : AudioState) (route_id : String) : Bool :=
  match alGet s.routes route_id with
  | none => false
  | some r => r.links.all (fun l => s.backend.contains l)

/-- `AudioInterface.add_output_to_route` (audio.py lines 240-283):
finds the first route whose id starts with `source ++ "->"`; raises
`ValueError` if none; returns unchanged if `new_target` is already a
member; otherwise creates BOTH the FL and the FR link (unconditionally —
the code never consults the target's channel count here) and appends the
target and the two link strings to the route. -/
def add_output_to_route (s : AudioState) (source new_target : String) :
    Except AudioErr Unit × AudioState :=
  match s.routes.find? (fun p => strStarts p.1 (source ++ "->")) with
  | none => (.error (.noRouteForSource source), s)
  | some (rid, r) =>
      if new_target ∈ r.outputs then (.ok (), s)
      else
        let fl := linkFL source new_target
        let fr := linkFR source new_target
        (.ok (),
          { s with
            backend := addLink (addLink s.backend fl) fr
            routes := alSet s.routes rid
              { r with
                outputs := r.outputs ++ [new_target]
                links := r.links ++ [fl, fr] } })

/-- Sequential replay of `add_output_to_route` over a list of targets,
as in the loop of `repair_route` (audio.py lines 214-215); the first
raised error propagates out of the loop. -/
def addOutputsGo (source : String) (ts : List String) (s : AudioState) :
    Except AudioErr Unit × AudioState :=
  match ts with
  | [] => (.ok (), s)
  | t :: rest =>
      match add_output_to_route s source t with
      | (.ok _, s1) => addOutputsGo source rest s1
      | (.error e, s1) => (.error e, s1)

/-- `AudioInterface.repair_route` (audio.py lines 198-221): tears down the
recorded links, recreates the (source, first-target) link via
`create_route`, replays `add_output_to_route` for the remaining original
targets (the loop iterates the snapshot taken before `create_route`
rebinds the dict entry), then re-verifies.  Any raised error is caught
and turned into `false` with whatever state the steps so far produced. -/
def repair_route (s : AudioState) (route_id : String) : Bool × AudioState :=
  match alGet s.routes route_id with
  | none => (false, s)
  | some r =>
      let s1 := { s with backend := removeLinks s.backend r.links }
      match r.outputs with
      | [] => (false, s1)
      | target :: rest =>
          match create_route s1 r.source target with
          | (.error _, s2) => (false, s2)
          | (.ok new_route_id, s2) =>
              match addOutputsGo r.source rest s2 with
              | (.error _, s3) => (false, s3)
              | (.ok _, s3) => (verify_route s3 new_route_id, s3)

/-- `AudioInterface.set_volume` (audio.py lines 285-322): the range check
`0 <= volume <= 1` precedes everything and raises `ValueError` without
touching any state; on an in-range volume both the wpctl path and the
pw-cli fallback end by caching `self.volumes[device] = volume`, so the
wpctl outcome does not change the resulting state. -/
def set_volume (_wpctlOk : Bool) (s : AudioState) (device : String) (v : ℚ) :
    Except AudioErr Unit × AudioState :=
  if ¬ (0 ≤ v ∧ v ≤ 1) then (.error .invalidVolume, s)
  else
    (.ok (), { s with volumes := alSet s.volumes device v })

/-- Outcome of the `wpctl get-volume` attempt in `get_volume`: parsed
volume on exit code 0, nonzero exit, or a raised exception. -/
inductive WpctlRes
| ok (v : ℚ)
| fail
| exnRaised
deriving DecidableEq

/-- Outcome of the `pw-dump` fallback in `get_volume`: a node matching
the device with a `Props.volume`, no such node, or a raised exception. -/
inductive DumpRes
| found (v : ℚ)
| notFound
| exnRaised
deriving DecidableEq

/-- `AudioInterface.get_volume` (audio.py lines 324-363): wpctl success
returns the parsed backend value; on wpctl failure the pw-dump fallback
returns a found backend value, else the locally cached volume with
default 0.0; any raised exception is caught and yields 0.0 — the cache
is NOT consulted on that path. -/
def get_volume (w : WpctlRes) (d : DumpRes) (s : AudioState)
    (device : String) : ℚ :=
  match w with
  | .ok v => v
  | .exnRaised => 0
  | .fail =>
      match d with
      | .found v => v
      | .exnRaised => 0
      | .notFound => (alGet s.volumes device).getD 0

/-- `PTPSync._elect_master` (sync.py lines 36-59): after broadcasting its
own id the node collects peer ids for the 1-second window (`otherIds` is
the list collected, in arrival order) and returns
`our_id < min(other_ids) if other_ids else True`. -/
def elect_master (ourId : Nat) (otherIds : List Nat) : Bool :=
  match otherIds with
  | [] => true
  | x :: xs => ourId < xs.foldl Nat.min x

/-- The per-sample offset formula of `PTPSync._initial_sync`
(sync.py line 79): `((t2 - t1) + (t3 - t4)) / 2`. -/
def sampleOffset (t1 t2 t3 t4 : ℚ) : ℚ :=
  ((t2 - t1) + (t3 - t4)) / 2

/-- One iteration of the sampling loop of `_initial_sync` (sync.py lines
68-83) on the accumulator `(offset_sum, samples)`: a round whose response
starts with `sync_resp` contributes its offset and bumps the count; any
other round leaves the accumulator untouched. -/
def syncRound (acc : ℚ × Nat) (round : Option (ℚ × ℚ × ℚ × ℚ)) : ℚ × Nat :=
  match round with
  | some (t1, t2, t3, t4) => (acc.1 + sampleOffset t1 t2 t3 t4, acc.2 + 1)
  | none => acc

/-- `PTPSync._initial_sync` (sync.py lines 61-86) as a function of the 8
rounds (each round is `some (t1, t2, t3, t4)` when a `sync_resp` arrived,
`none` when the sample was lost) and the previous stored offset: folds the
sampling loop, then stores the mean only when `samples > 0`. -/
def initial_sync (rounds : List (Option (ℚ × ℚ × ℚ × ℚ))) (offset0 : ℚ) : ℚ :=
  let acc := rounds.foldl syncRound (0, 0)
  if acc.2 > 0 then acc.1 / acc.2 else offset0

/-- The offsets of the successful samples of a round list, in order. -/
def succOffsets (rounds : List (Option (ℚ × ℚ × ℚ × ℚ))) : List ℚ :=
  (rounds.filterMap id).map (fun q => sampleOffset q.1 q.2.1 q.2.2.1 q.2.2.2)

/-- Effects performed by `NodeManager.handle_bluetooth_device`, in
program order. -/
inductive Eff
| connectDev (mac : String) (ok : Bool)
| sleepSecs (n : Nat)
| disconnectDev (mac : String) (ok : Bool)
| logError
deriving DecidableEq

/-- `NodeManager.handle_bluetooth_device` (node_manager.py lines 120-137)
over the audio state, with `btOk` the outcome `BluetoothInterface`
reports for the connect/disconnect call (that method catches its own
exceptions and returns a Bool).  `connect`: on a successful connect,
sleep 2 s, `create_route(mac, default_output)`, then
`set_volume(default_output, 0.7)`; a raised error is caught, logged and
turned into `False`, skipping the remaining steps.  `disconnect`: only
the disconnect call.  Any other action returns `False`.  Result:
(returned bool, audio state after the call, effect trace). -/
def handle_bluetooth_device (btOk : Bool) (s : AudioState)
    (default_output mac action : String) :
    Bool × AudioState × List Eff :=
  if action = "connect" then
    if btOk then
      match create_route s mac default_output with
      | (.ok _, s1) =>
          match set_volume true s1 default_output (7 / 10) with
          | (.ok _, s2) =>
              (true, s2, [.connectDev mac true, .sleepSecs 2])
          | (.error _, s2) =>
              (false, s2, [.connectDev mac true, .sleepSecs 2, .logError])
      | (.error _, s1) =>
          (false, s1, [.connectDev mac true, .sleepSecs 2, .logError])
    else (false, s, [.connectDev mac false])
  else if action = "disconnect" then
    (btOk, s, [.disconnectDev mac btOk])
  else (false, s, [])

/-- Signal-quality classification of `BluetoothInterface.get_status`
(bluetooth.py line 409): `"good" if device.get("rssi", -100) > -80 else
"poor"`; a device whose RSSI was never observed falls to the -100
default and classifies as poor, and the -100 is never stored. -/
def qualityOf (rssi : Option Int) : String :=
  if rssi.getD (-100) > -80 then "good" else "poor"

/-- Python runtime values relevant to the `quality["quality"] < 30`
comparison in `_monitor_bluetooth`. -/
inductive PyVal
| int (n : Int)
| str (s : String)
deriving DecidableEq

/-- Python 3 `<` on these values: int/int and str/str compare, a mixed
comparison raises `TypeError`. -/
def pyLt (a b : PyVal) : Except String Bool :=
  match a, b with
  | .int m, .int n => .ok (decide (m < n))
  | .str x, .str y => .ok (decide (x < y))
  | _, _ => .error "TypeError"

/-- The loop body of one `NodeManager._monitor_bluetooth` iteration
(node_manager.py lines 152-164) over the connected devices (mac paired
with its optional RSSI, as delivered by `get_status`'s signal_quality
dict): for each device it evaluates `quality["quality"] < 30` where the
quality value is the STRING produced by `qualityOf`; a raised `TypeError`
aborts the iteration and is caught by the `except` clause, which logs a
monitoring error.  Returns the warning messages logged and whether the
error handler ran. -/
def monitorGo (mode : String) (ds : List (String × Option Int))
    (acc : List String) : List String × Bool :=
  match ds with
  | [] => (acc, false)
  | (mac, rssi) :: rest =>
      match pyLt (.str (qualityOf rssi)) (.int 30) with
      | .error _ => (acc, true)
      | .ok true =>
          if mode = "distributed" then monitorGo mode rest acc
          else monitorGo mode rest
            (acc ++ ["Poor Bluetooth signal for " ++ mac])
      | .ok false => monitorGo mode rest acc

/-- One full signal-monitor iteration. -/
def monitor_iteration (mode : String) (ds : List (String × Option Int)) :
    List String × Bool :=
  monitorGo mode ds []

/-! ### Helper lemmas about the association-list and link-set operations -/

theorem alGet_alSet_self {β : Type} (l : List (String × β)) (k : String)
    (v : β) : alGet (alSet l k v) k = some v := by
  induction l with
  | nil => simp [alSet, alGet]
  | cons p rest ih =>
      obtain ⟨k0, v0⟩ := p
      by_cases hk : k0 = k
      · simp [alSet, hk, alGet]
      · simp [alSet, hk, alGet, ih]

theorem find?_alSet {β : Type} (p : String → Bool) (l : List (String × β))
    (k : String) (r v : β)
    (h : l.find? (fun q => p q.1) = some (k, r)) :
    (alSet l k v).find? (fun q => p q.1) = some (k, v) := by
  induction l with
  | nil => simp [List.find?] at h
  | cons q rest ih =>
      obtain ⟨k0, v0⟩ := q
      by_cases hp : p k0
      · rw [List.find?_cons_of_pos _ (by simpa using hp)] at h
        obtain ⟨hk, _⟩ := Prod.mk.injEq .. ▸ (Option.some.injEq .. ▸ h)
        subst hk
        simp only [alSet, if_pos rfl]
        exact List.find?_cons_of_pos _ (by simpa using hp)
      · rw [List.find?_cons_of_neg _ (by simpa using hp)] at h
        have hk0 : k0 ≠ k := by
          intro hk
          subst hk
          have := List.find?_some h
          simp at this
          exact hp (by simpa using this)
        simp only [alSet, if_neg hk0]
        rw [List.find?_cons_of_neg _ (by simpa using hp)]
        exact ih h

theorem mem_addLink_self (b : List String) (l : String) : l ∈ addLink b l := by
  unfold addLink
  by_cases h : l ∈ b
  · simp [h]
  · simp [h]

theorem mem_addLink_of_mem {b : List String} {x : String} (l : String)
    (h : x ∈ b) : x ∈ addLink b l := by
  unfold addLink
  by_cases hm : l ∈ b
  · simpa [hm]
  · simp [hm, h]

theorem mem_foldl_addLink_of_mem {x : String} (ls : List String) :
    ∀ b : List String, x ∈ b → x ∈ ls.foldl addLink b := by
  induction ls with
  | nil => intro b h; exact h
  | cons l rest ih =>
      intro b h
      exact ih (addLink b l) (mem_addLink_of_mem l h)

theorem mem_foldl_addLink_self {l : String} (ls : List String) (hl : l ∈ ls) :
    ∀ b : List String, l ∈ ls.foldl addLink b := by
  induction ls with
  | nil => cases hl
  | cons x rest ih =>
      intro b
      rcases List.mem_cons.mp hl with h | h
      · subst h
        exact mem_foldl_addLink_of_mem rest (addLink b l) (mem_addLink_self b l)
      · exact ih h (addLink b x)

/-- The pair of link strings `add_output_to_route` records per replayed
target, sequenced over a target list. -/
def linksOf (source : String) (ts : List String) : List String :=
  ts.flatMap (fun t => [linkFL source t, linkFR source t])

theorem linksOf_nil (source : String) : linksOf source [] = [] := by
  simp [linksOf]

theorem linksOf_cons (source t : String) (ts : List String) :
    linksOf source (t :: ts) =
      linkFL source t :: linkFR source t :: linksOf source ts := by
  simp [linksOf]

theorem addOutputsGo_ok (source : String) :
    ∀ (ts : List String) (s : AudioState) (rid : String) (r : Route),
      s.routes.find? (fun q => strStarts q.1 (source ++ "->")) = some (rid, r) →
      alGet s.routes rid = some r →
      (∀ t ∈ ts, t ∉ r.outputs) → ts.Nodup →
      ∃ s1 : AudioState,
        addOutputsGo source ts s = (.ok (), s1) ∧
        s1.routes.find? (fun q => strStarts q.1 (source ++ "->")) =
          some (rid, { r with outputs := r.outputs ++ ts,
                              links := r.links ++ linksOf source ts }) ∧
        alGet s1.routes rid =
          some { r with outputs := r.outputs ++ ts,
                        links := r.links ++ linksOf source ts } ∧
        (∀ l ∈ s.backend, l ∈ s1.backend) ∧
        (∀ t ∈ ts, linkFL source t ∈ s1.backend ∧ linkFR source t ∈ s1.backend) := by
  intro ts
  induction ts with
  | nil =>
      intro s rid r hfind hget _ _
      refine ⟨s, rfl, ?_, ?_, fun l hl => hl, by simp⟩
      · simpa [linksOf_nil] using hfind
      · simpa [linksOf_nil] using hget
  | cons t rest ih =>
      intro s rid r hfind hget hnot hnd
      have hmem : t ∉ r.outputs := hnot t (List.mem_cons_self t rest)
      have hstep :
          add_output_to_route s source t =
            (.ok (),
              { s with
                backend := addLink (addLink s.backend (linkFL source t))
                  (linkFR source t)
                routes := alSet s.routes rid
                  { r with outputs := r.outputs ++ [t]
                           links := r.links ++ [linkFL source t, linkFR source t] } }) := by
        unfold add_output_to_route
        rw [hfind]
        simp [hmem]
      set r2 : Route :=
        { r with outputs := r.outputs ++ [t]
                 links := r.links ++ [linkFL source t, linkFR source t] } with hr2
      set s2 : AudioState :=
        { s with
          backend := addLink (addLink s.backend (linkFL source t))
            (linkFR source t)
          routes := alSet s.routes rid r2 } with hs2
      have hrun : addOutputsGo source (t :: rest) s = addOutputsGo source rest s2 := by
        have hdef : addOutputsGo source (t :: rest) s =
            match add_output_to_route s source t with
            | (.ok _, s1) => addOutputsGo source rest s1
            | (.error e, s1) => (.error e, s1) := rfl
        rw [hdef, hstep]
      have hfind2 : s2.routes.find? (fun q => strStarts q.1 (source ++ "->")) =
          some (rid, r2) :=
        find?_alSet (fun k => strStarts k (source ++ "->")) s.routes rid r r2 hfind
      have hget2 : alGet s2.routes rid = some r2 := alGet_alSet_self s.routes rid r2
      have ht_not_rest : t ∉ rest := (List.nodup_cons.mp hnd).1
      have hnot2 : ∀ u ∈ rest, u ∉ r2.outputs := by
        intro u hu hmem2
        rw [hr2] at hmem2
        simp only [List.mem_append, List.mem_singleton] at hmem2
        rcases hmem2 with h | h
        · exact hnot u (List.mem_cons_of_mem t hu) h
        · exact ht_not_rest (h ▸ hu)
      obtain ⟨s1, hrun1, hfind1, hget1, hback1, hlinks1⟩ :=
        ih s2 rid r2 hfind2 hget2 hnot2 (List.nodup_cons.mp hnd).2
      have hrec :
          ({ r2 with
              outputs := r2.outputs ++ rest
              links := r2.links ++ linksOf source rest } : Route) =
            { r with
              outputs := r.outputs ++ (t :: rest)
              links := r.links ++ linksOf source (t :: rest) } := by
        simp [hr2, linksOf_cons, List.append_assoc]
      refine ⟨s1, by rw [hrun, hrun1], ?_, ?_, ?_, ?_⟩
      · rw [hfind1, hrec]
      · rw [hget1, hrec]
      · intro l hl
        exact hback1 l
          (mem_addLink_of_mem _ (mem_addLink_of_mem _ hl))
      · intro u hu
        rcases List.mem_cons.mp hu with h | h
        · subst h
          constructor
          · exact hback1 _
              (mem_addLink_of_mem _ (mem_addLink_self s.backend (linkFL source u)))
          · exact hback1 _ (mem_addLink_self _ (linkFR source u))
        · exact hlinks1 u h

theorem foldl_min_lt_iff (ourId : Nat) (xs : List Nat) :
    ∀ x : Nat, (ourId < xs.foldl Nat.min x ↔ ourId < x ∧ ∀ y ∈ xs, ourId < y) := by
  induction xs with
  | nil => intro x; simp
  | cons y ys ih =>
      intro x
      rw [List.foldl_cons, ih (Nat.min x y)]
      constructor
      · rintro ⟨hmin, hall⟩
        rcases Nat.lt_min.mp hmin with ⟨hx, hy⟩
        exact ⟨hx, fun z hz => by
          rcases List.mem_cons.mp hz with h | h
          · exact h ▸ hy
          · exact hall z h⟩
      · rintro ⟨hx, hall⟩
        refine ⟨Nat.lt_min.mpr ⟨hx, hall y (List.mem_cons_self y ys)⟩, ?_⟩
        exact fun z hz => hall z (List.mem_cons_of_mem y hz)

theorem foldl_syncRound_eq (rounds : List (Option (ℚ × ℚ × ℚ × ℚ))) :
    ∀ a : ℚ, ∀ n : Nat,
      rounds.foldl syncRound (a, n) =
        (a + (succOffsets rounds).sum, n + (succOffsets rounds).length) := by
  induction rounds with
  | nil => intro a n; simp [succOffsets]
  | cons round rest ih =>
      intro a n
      cases round with
      | none =>
          rw [List.foldl_cons]
          show rest.foldl syncRound (a, n) = _
          rw [ih a n]
          simp [succOffsets]
      | some q =>
          obtain ⟨t1, t2, t3, t4⟩ := q
          rw [List.foldl_cons]
          show rest.foldl syncRound (a + sampleOffset t1 t2 t3 t4, n + 1) = _
          rw [ih (a + sampleOffset t1 t2 t3 t4) (n + 1)]
          simp [succOffsets]
          constructor
          · ring
          · omega

theorem create_route_eval (s : AudioState) (source target : String) (c : Nat)
    (h : alGet s.outputs target = some c) :
    create_route s source target =
      (.ok (source ++ "->" ++ target),
        { s with
          backend := (if c == 1 then [linkFL source target]
            else [linkFL source target, linkFR source target]).foldl addLink
              s.backend
          routes := alSet s.routes (source ++ "->" ++ target)
            ⟨source, [target],
              if c == 1 then [linkFL source target]
              else [linkFL source target, linkFR source target], c == 1⟩ }) := by
  unfold create_route
  rw [h]

theorem set_volume_in_range_eval (w : Bool) (s : AudioState) (device : String)
    (v : ℚ) (h0 : 0 ≤ v) (h1 : v ≤ 1) :
    set_volume w s device v =
      (.ok (), { s with volumes := alSet s.volumes device v }) := by
  unfold set_volume
  rw [if_neg (by simp [h0, h1])]

/-! ### Claim theorems -/

/-- Claim C1: for every `create_route(source, target)` call with `target`
a currently known output device, the call succeeds, and the recorded
route holds exactly one (front-left) link when the target has exactly one
channel and exactly two links (front-left, front-right) when it has more
than one; each recorded link is also created in the backend. -/
theorem create_route_channel_policy (s : AudioState) (source target : String)
    (c : Nat) (h : alGet s.outputs target = some c) :
    ∃ s1 : AudioState, ∃ r : Route,
      create_route s source target = (.ok (source ++ "->" ++ target), s1) ∧
      alGet s1.routes (source ++ "->" ++ target) = some r ∧
      (c = 1 → r.links = [linkFL source target]) ∧
      (1 < c → r.links = [linkFL source target, linkFR source target]) ∧
      (∀ l ∈ r.links, l ∈ s1.backend) := by
  rw [create_route_eval s source target c h]
  refine ⟨_, _, rfl, alGet_alSet_self _ _ _, ?_, ?_, ?_⟩
  · intro hc
    simp [hc]
  · intro hc
    have hne : (c == 1) = false := by
      simp [Nat.ne_of_gt hc]
    simp [hne]
  · intro l hl
    exact mem_foldl_addLink_self _ hl s.backend

/-- Witness for C1: a known 1-channel output yields the single FL link. -/
theorem create_route_channel_policy_witness :
    ∃ s1 : AudioState, ∃ r : Route,
      create_route ⟨[("spk", 1)], [], [], []⟩ "m" "spk" =
        (.ok ("m" ++ "->" ++ "spk"), s1) ∧
      alGet s1.routes ("m" ++ "->" ++ "spk") = some r ∧
      ((1 : Nat) = 1 → r.links = [linkFL "m" "spk"]) ∧
      ((1 : Nat) < 1 → r.links = [linkFL "m" "spk", linkFR "m" "spk"]) ∧
      (∀ l ∈ r.links, l ∈ s1.backend) :=
  create_route_channel_policy ⟨[("spk", 1)], [], [], []⟩ "m" "spk" 1 rfl

/-- Claim C8: `set_volume` with a volume outside [0, 1] raises the
invalid-argument error and returns with the state — in particular the
cached volumes — exactly as it was. -/
theorem set_volume_out_of_range (w : Bool) (s : AudioState) (device : String)
    (v : ℚ) (h : v < 0 ∨ 1 < v) :
    set_volume w s device v = (.error .invalidVolume, s) := by
  have hc : ¬ (0 ≤ v ∧ v ≤ 1) := by
    rcases h with h | h
    · exact fun hx => absurd hx.1 (not_le.mpr h)
    · exact fun hx => absurd hx.2 (not_le.mpr h)
  unfold set_volume
  rw [if_pos hc]

/-- Witness for C8: `set_volume` at volume 1.5 on a device with cached
volume 0.5 fails with the invalid-argument error and leaves the state,
including the cache, untouched. -/
theorem set_volume_out_of_range_witness :
    set_volume true ⟨[], [], [("dev", 1 / 2)], []⟩ "dev" (3 / 2) =
      (.error .invalidVolume, ⟨[], [], [("dev", 1 / 2)], []⟩) :=
  set_volume_out_of_range true ⟨[], [], [("dev", 1 / 2)], []⟩ "dev" (3 / 2)
    (Or.inr (by norm_num))

/-- Claim C10: a second `add_output_to_route` with a target that is
already a member of the found route is a no-op, not an error: the call
returns success and the state — target list, recorded links, backend —
is exactly unchanged. -/
theorem add_output_idempotent (s : AudioState) (source new_target rid : String)
    (r : Route)
    (hfind : s.routes.find? (fun q => strStarts q.1 (source ++ "->")) =
      some (rid, r))
    (hmem : new_target ∈ r.outputs) :
    add_output_to_route s source new_target = (.ok (), s) := by
  unfold add_output_to_route
  rw [hfind]
  simp [hmem]

/-- Witness for C10 on the state reached after routing source m to a and
fanning out to b: adding b a second time returns success and the very
same state. -/
theorem add_output_idempotent_witness :
    add_output_to_route
      ⟨[("a", 1), ("b", 2)],
       [("m->a", ⟨"m", ["a", "b"],
         [linkFL "m" "a", linkFL "m" "b", linkFR "m" "b"], true⟩)],
       [], [linkFL "m" "a", linkFL "m" "b", linkFR "m" "b"]⟩ "m" "b" =
      (.ok (),
        ⟨[("a", 1), ("b", 2)],
         [("m->a", ⟨"m", ["a", "b"],
           [linkFL "m" "a", linkFL "m" "b", linkFR "m" "b"], true⟩)],
         [], [linkFL "m" "a", linkFL "m" "b", linkFR "m" "b"]⟩) :=
  add_output_idempotent _ "m" "b" "m->a"
    ⟨"m", ["a", "b"], [linkFL "m" "a", linkFL "m" "b", linkFR "m" "b"], true⟩
    (by decide) (by decide)

/-- Claim C4 counterexample: with outputs a and b both mono (1 channel),
`create_route("m", "a")` followed by `add_output_to_route("m", "b")`
leaves the route with THREE recorded links, the front-right link for the
mono target b included — the code creates FL and FR unconditionally,
where the claim mandates exactly one link for a mono new target. -/
theorem add_output_mono_counterexample :
    alGet ((add_output_to_route
        ((create_route ⟨[("a", 1), ("b", 1)], [], [], []⟩ "m" "a").2)
        "m" "b").2).routes "m->a" =
      some ⟨"m", ["a", "b"],
        [linkFL "m" "a", linkFL "m" "b", linkFR "m" "b"], true⟩ := by
  decide

/-- Claim C4 (amended): `add_output_to_route` with a target not yet a
member always creates BOTH the front-left and front-right links,
regardless of the new target's channel count, appends the target to the
route's target list and records exactly those two new links. -/
theorem add_output_two_links_unconditional (s : AudioState)
    (source new_target rid : String) (r : Route)
    (hfind : s.routes.find? (fun q => strStarts q.1 (source ++ "->")) =
      some (rid, r))
    (hnot : new_target ∉ r.outputs) :
    ∃ s1 : AudioState,
      add_output_to_route s source new_target = (.ok (), s1) ∧
      alGet s1.routes rid = some
        { r with
          outputs := r.outputs ++ [new_target]
          links := r.links ++
            [linkFL source new_target, linkFR source new_target] } ∧
      linkFL source new_target ∈ s1.backend ∧
      linkFR source new_target ∈ s1.backend := by
  simp only [add_output_to_route, hfind]
  rw [if_neg hnot]
  exact ⟨_, rfl, alGet_alSet_self _ _ _,
    mem_addLink_of_mem _ (mem_addLink_self _ _), mem_addLink_self _ _⟩

/-- Witness for the amended C4, the spec scenario with A mono and B
stereo: after `create_route("x", "A")` (one link) the `add_output` of B
yields targets [A, B] and three recorded links in total. -/
theorem add_output_two_links_unconditional_witness :
    ∃ s1 : AudioState,
      add_output_to_route
        ⟨[("A", 1), ("B", 2)],
         [("x->A", ⟨"x", ["A"], [linkFL "x" "A"], true⟩)],
         [], [linkFL "x" "A"]⟩ "x" "B" = (.ok (), s1) ∧
      alGet s1.routes "x->A" = some
        ⟨"x", ["A", "B"], [linkFL "x" "A", linkFL "x" "B", linkFR "x" "B"],
          true⟩ ∧
      linkFL "x" "B" ∈ s1.backend ∧
      linkFR "x" "B" ∈ s1.backend :=
  add_output_two_links_unconditional
    ⟨[("A", 1), ("B", 2)],
     [("x->A", ⟨"x", ["A"], [linkFL "x" "A"], true⟩)],
     [], [linkFL "x" "A"]⟩ "x" "B" "x->A"
    ⟨"x", ["A"], [linkFL "x" "A"], true⟩ (by decide) (by decide)

/-- Claim C2: `_elect_master` elects self iff the node's own id is
strictly below every id observed from peers during the collection window
(with unique ids this says the own id is the strict minimum of
{own id} ∪ {observed ids}); with no responders it elects self; and among
ids {5, 3, 9} exactly the node holding 3 elects itself master. -/
theorem elect_master_spec :
    (∀ (ourId : Nat) (otherIds : List Nat),
        elect_master ourId otherIds = true ↔ ∀ x ∈ otherIds, ourId < x) ∧
    elect_master 3 [5, 9] = true ∧
    elect_master 5 [3, 9] = false ∧
    elect_master 9 [5, 3] = false ∧
    (∀ ourId : Nat, elect_master ourId [] = true) := by
  refine ⟨?_, by decide, by decide, by decide, fun _ => rfl⟩
  intro ourId otherIds
  cases otherIds with
  | nil => simp [elect_master]
  | cons x xs =>
      have hd : elect_master ourId (x :: xs) =
          decide (ourId < xs.foldl Nat.min x) := rfl
      rw [hd, decide_eq_true_iff, foldl_min_lt_iff ourId xs x]
      constructor
      · rintro ⟨hx, hall⟩ y hy
        rcases List.mem_cons.mp hy with h | h
        · exact h ▸ hx
        · exact hall y h
      · intro h
        exact ⟨h x (List.mem_cons_self x xs),
          fun y hy => h y (List.mem_cons_of_mem x hy)⟩

/-- Claim C3: over an 8-round sampling window, `_initial_sync` stores the
arithmetic mean of the per-sample offsets ((t2 - t1) + (t3 - t4)) / 2 of
the successful samples only; a lost sample contributes nothing (it is
not counted as 0), and with zero successful samples the stored offset is
the unchanged previous one. -/
theorem initial_sync_mean (rounds : List (Option (ℚ × ℚ × ℚ × ℚ)))
    (offset0 : ℚ) (_hlen : rounds.length = 8) :
    initial_sync rounds offset0 =
      if succOffsets rounds = [] then offset0
      else (succOffsets rounds).sum / (succOffsets rounds).length := by
  unfold initial_sync
  rw [foldl_syncRound_eq rounds 0 0]
  simp only [zero_add, Nat.zero_add]
  by_cases h : succOffsets rounds = []
  · have h0 : (succOffsets rounds).length = 0 := by rw [h]; rfl
    rw [if_pos h, h0]
    simp
  · have hpos : (succOffsets rounds).length > 0 := List.length_pos.mpr h
    rw [if_neg h, if_pos hpos]

/-- Witness for C3: 8 rounds in which the four successful samples have
raw offsets 10, 10, 12, 8 and four samples are lost; the stored offset is
their mean 10 (were the lost samples counted as 0 it would be 5), and
the previous offset 42 is replaced. -/
theorem initial_sync_mean_witness :
    initial_sync
      [some (0, 10, 10, 0), some (0, 10, 10, 0), some (0, 12, 12, 0),
       some (0, 8, 8, 0), none, none, none, none] 42 = 10 := by
  have hso : succOffsets
      [some (0, 10, 10, 0), some (0, 10, 10, 0), some (0, 12, 12, 0),
       some (0, 8, 8, 0), none, none, none, none] = [10, 10, 12, 8] := by
    norm_num [succOffsets, sampleOffset, List.filterMap_cons]
  rw [initial_sync_mean
    [some (0, 10, 10, 0), some (0, 10, 10, 0), some (0, 12, 12, 0),
     some (0, 8, 8, 0), none, none, none, none] 42 rfl, hso,
    if_neg (by simp)]
  norm_num

/-- Claim C7 counterexample: with 0.7 cached for device dev, a backend
query that raises an exception makes `get_volume` return 0.0, not the
cached 0.7 — the cache is consulted only on the non-raising fallback
path, so the claim as stated fails. -/
theorem get_volume_exn_counterexample :
    get_volume .exnRaised .notFound ⟨[], [], [("dev", 7 / 10)], []⟩ "dev" =
      0 ∧
    alGet (⟨[], [], [("dev", 7 / 10)], []⟩ : AudioState).volumes "dev" =
      some (7 / 10) ∧
    (7 / 10 : ℚ) ≠ 0 := by
  refine ⟨rfl, rfl, by norm_num⟩

/-- Claim C7 (amended): when the wpctl query fails with a nonzero exit
and the pw-dump fallback completes without finding the device,
`get_volume` degrades to the locally cached volume; but when the query
raises an exception, it returns 0.0 regardless of the cache. -/
theorem get_volume_degrade (s : AudioState) (device : String) (v : ℚ)
    (hc : alGet s.volumes device = some v) :
    get_volume .fail .notFound s device = v ∧
    (∀ d : DumpRes, get_volume .exnRaised d s device = 0) := by
  constructor
  · simp [get_volume, hc]
  · intro d
    rfl

/-- Witness for the amended C7 at a device with cached volume 0.7. -/
theorem get_volume_degrade_witness :
    get_volume .fail .notFound ⟨[], [], [("dev", 7 / 10)], []⟩ "dev" =
      7 / 10 ∧
    (∀ d : DumpRes,
      get_volume .exnRaised d ⟨[], [], [("dev", 7 / 10)], []⟩ "dev" = 0) :=
  get_volume_degrade ⟨[], [], [("dev", 7 / 10)], []⟩ "dev" (7 / 10) rfl

/-- Claim C9 (code bug): `get_status` classifies good exactly when the
observed RSSI is strictly above -80 (an absent RSSI falls to the -100
default, hence poor), but `_monitor_bluetooth` then compares that STRING
with the number 30, which raises `TypeError`; the iteration's exception
handler logs a monitoring error and NO poor-signal warning is ever
logged — here shown in standalone mode for a connected device with RSSI
-90 dBm, classified poor. -/
theorem monitor_poor_signal_type_error :
    qualityOf (some (-90)) = "poor" ∧
    qualityOf (some (-79)) = "good" ∧
    qualityOf (some (-80)) = "poor" ∧
    qualityOf none = "poor" ∧
    monitor_iteration "standalone" [("AA:BB:CC:DD:EE:FF", some (-90))] =
      ([], true) := by
  decide

theorem create_route_unknown (s : AudioState) (source target : String)
    (h : alGet s.outputs target = none) :
    create_route s source target = (.error (.unknownOutput target), s) := by
  unfold create_route
  rw [h]

/-- Claim C5: `handle_bluetooth_device`.  `disconnect` only performs the
disconnect, leaving the audio state untouched.  `connect`: a failed
Bluetooth connect aborts before the stabilization wait, the routing and
the volume steps and reports failure; a connect whose `create_route`
raises (unknown default output) aborts the volume step, logs the error
and reports failure with no route recorded (the state is exactly the
pre-call state); and when every step succeeds the call connects, waits
the fixed 2 s, records the route mac -> default output and caches the
default volume 0.7, reporting success. -/
theorem handle_bluetooth_device_spec :
    (∀ (btOk : Bool) (s : AudioState) (dflt mac : String),
        handle_bluetooth_device btOk s dflt mac "disconnect" =
          (btOk, s, [.disconnectDev mac btOk])) ∧
    (∀ (s : AudioState) (dflt mac : String),
        handle_bluetooth_device false s dflt mac "connect" =
          (false, s, [.connectDev mac false])) ∧
    (∀ (s : AudioState) (dflt mac : String),
        alGet s.outputs dflt = none →
        handle_bluetooth_device true s dflt mac "connect" =
          (false, s, [.connectDev mac true, .sleepSecs 2, .logError])) ∧
    (∀ (s : AudioState) (dflt mac : String) (c : Nat),
        alGet s.outputs dflt = some c →
        ∃ (s2 : AudioState) (r : Route),
          handle_bluetooth_device true s dflt mac "connect" =
            (true, s2, [.connectDev mac true, .sleepSecs 2]) ∧
          alGet s2.routes (mac ++ "->" ++ dflt) = some r ∧
          r.source = mac ∧ r.outputs = [dflt] ∧
          alGet s2.volumes dflt = some (7 / 10)) := by
  refine ⟨fun btOk s dflt mac => rfl, fun s dflt mac => rfl, ?_, ?_⟩
  · intro s dflt mac h
    have hdef : handle_bluetooth_device true s dflt mac "connect" =
        match create_route s mac dflt with
        | (.ok _, s1) =>
            (match set_volume true s1 dflt (7 / 10) with
             | (.ok _, s2) =>
                 (true, s2, [.connectDev mac true, .sleepSecs 2])
             | (.error _, s2) =>
                 (false, s2,
                   [.connectDev mac true, .sleepSecs 2, .logError]))
        | (.error _, s1) =>
            (false, s1, [.connectDev mac true, .sleepSecs 2, .logError]) :=
      rfl
    rw [hdef, create_route_unknown s mac dflt h]
  · intro s dflt mac c h
    have hdef : handle_bluetooth_device true s dflt mac "connect" =
        match create_route s mac dflt with
        | (.ok _, s1) =>
            (match set_volume true s1 dflt (7 / 10) with
             | (.ok _, s2) =>
                 (true, s2, [.connectDev mac true, .sleepSecs 2])
             | (.error _, s2) =>
                 (false, s2,
                   [.connectDev mac true, .sleepSecs 2, .logError]))
        | (.error _, s1) =>
            (false, s1, [.connectDev mac true, .sleepSecs 2, .logError]) :=
      rfl
    rw [hdef]
    have hcr := create_route_eval s mac dflt c h
    split
    case _ a s1 heq =>
      rw [hcr] at heq
      obtain ⟨-, hs1⟩ := Prod.mk.injEq .. ▸ heq
      subst hs1
      rw [set_volume_in_range_eval true _ dflt (7 / 10) (by norm_num)
        (by norm_num)]
      exact ⟨_, _, rfl, alGet_alSet_self _ _ _, rfl, rfl,
        alGet_alSet_self _ _ _⟩
    case _ e s1 heq =>
      rw [hcr] at heq
      simp at heq

/-- Witness for C5: with the stereo output "default" known, connecting
"AA" succeeds, records the route AA -> default and caches volume 0.7. -/
theorem handle_bluetooth_device_spec_witness :
    ∃ (s2 : AudioState) (r : Route),
      handle_bluetooth_device true ⟨[("default", 2)], [], [], []⟩ "default"
          "AA" "connect" =
        (true, s2, [.connectDev "AA" true, .sleepSecs 2]) ∧
      alGet s2.routes ("AA" ++ "->" ++ "default") = some r ∧
      r.source = "AA" ∧ r.outputs = ["default"] ∧
      alGet s2.volumes "default" = some (7 / 10) :=
  handle_bluetooth_device_spec.2.2.2 ⟨[("default", 2)], [], [], []⟩ "default"
    "AA" 2 rfl

/-- Claim C6: `repair_route` on a known route (keyed canonically by its
source and first target, the first route for its source, with known
first target and duplicate-free target list) whose backend links were
externally removed returns true: it tears down the recorded links,
recreates the (source, first-target) link via `create_route`, replays
`add_output_to_route` over the remaining original targets, and the
re-verification succeeds; in the final state `verify_route` returns true
and the repaired route's target list equals the original one in the
original order. -/
theorem repair_route_restores (s : AudioState) (rid : String) (r : Route)
    (t : String) (rest : List String) (c : Nat)
    (hget : alGet s.routes rid = some r)
    (hfind : s.routes.find? (fun q => strStarts q.1 (r.source ++ "->")) =
      some (rid, r))
    (houts : r.outputs = t :: rest)
    (hrid : rid = r.source ++ "->" ++ t)
    (hknown : alGet s.outputs t = some c)
    (hnd : r.outputs.Nodup) :
    ∃ s3 : AudioState, repair_route s rid = (true, s3) ∧
      verify_route s3 rid = true ∧
      ∃ r3 : Route, alGet s3.routes rid = some r3 ∧
        r3.outputs = r.outputs := by
  subst hrid
  have hndc : (t :: rest).Nodup := houts ▸ hnd
  have htnot : t ∉ rest := (List.nodup_cons.mp hndc).1
  have hndrest : rest.Nodup := (List.nodup_cons.mp hndc).2
  have hcr := create_route_eval
    { s with backend := removeLinks s.backend r.links } r.source t c hknown
  simp only [repair_route, hget, houts, hcr]
  obtain ⟨s3, hrun3, hfind3, hget3, hback3, hlinks3⟩ :=
    addOutputsGo_ok r.source rest
      { outputs := s.outputs
        routes := alSet s.routes (r.source ++ "->" ++ t)
          ⟨r.source, [t],
            if c == 1 then [linkFL r.source t]
            else [linkFL r.source t, linkFR r.source t], c == 1⟩
        volumes := s.volumes
        backend := List.foldl addLink (removeLinks s.backend r.links)
          (if c == 1 then [linkFL r.source t]
           else [linkFL r.source t, linkFR r.source t]) }
      (r.source ++ "->" ++ t)
      ⟨r.source, [t],
        if c == 1 then [linkFL r.source t]
        else [linkFL r.source t, linkFR r.source t], c == 1⟩
      (find?_alSet (fun k => strStarts k (r.source ++ "->")) s.routes
        (r.source ++ "->" ++ t) r _ hfind)
      (alGet_alSet_self s.routes (r.source ++ "->" ++ t) _)
      (fun u hu hmem => htnot ((List.mem_singleton.mp hmem) ▸ hu))
      hndrest
  rw [hrun3]
  have hver : verify_route s3 (r.source ++ "->" ++ t) = true := by
    simp only [verify_route, hget3]
    rw [List.all_eq_true]
    intro l hl
    simp only [List.mem_append] at hl
    rcases hl with hl | hl
    · refine List.elem_eq_true_of_mem (hback3 l ?_)
      exact mem_foldl_addLink_self _ hl (removeLinks s.backend r.links)
    · rw [linksOf] at hl
      obtain ⟨u, hu, hmem⟩ := List.mem_flatMap.mp hl
      rcases List.mem_cons.mp hmem with h | h
      · exact List.elem_eq_true_of_mem (h ▸ (hlinks3 u hu).1)
      · rw [List.mem_singleton.mp h]
        exact List.elem_eq_true_of_mem (hlinks3 u hu).2
  refine ⟨s3, ?_, hver, ⟨_, hget3, rfl⟩⟩
  show (verify_route s3 (r.source ++ "->" ++ t), s3) = (true, s3)
  rw [hver]

/-- Witness for C6: the fanned-out route m -> [a, b] whose four backend
links were all externally removed (empty backend link set) is repaired;
verify_route holds afterwards and the target order [a, b] is kept. -/
theorem repair_route_restores_witness :
    ∃ s3 : AudioState,
      repair_route
        ⟨[("a", 2), ("b", 1)],
         [("m->a", ⟨"m", ["a", "b"],
           [linkFL "m" "a", linkFR "m" "a", linkFL "m" "b", linkFR "m" "b"],
           false⟩)],
         [], []⟩ "m->a" = (true, s3) ∧
      verify_route s3 "m->a" = true ∧
      ∃ r3 : Route, alGet s3.routes "m->a" = some r3 ∧
        r3.outputs = (⟨"m", ["a", "b"],
          [linkFL "m" "a", linkFR "m" "a", linkFL "m" "b", linkFR "m" "b"],
          false⟩ : Route).outputs :=
  repair_route_restores
    ⟨[("a", 2), ("b", 1)],
     [("m->a", ⟨"m", ["a", "b"],
       [linkFL "m" "a", linkFR "m" "a", linkFL "m" "b", linkFR "m" "b"],
       false⟩)],
     [], []⟩ "m->a"
    ⟨"m", ["a", "b"],
      [linkFL "m" "a", linkFR "m" "a", linkFL "m" "b", linkFR "m" "b"],
      false⟩ "a" ["b"] 2
    (by decide) (by decide) rfl (by decide) rfl (by decide)

/-- Witness for C2: the node holding id 3 elects itself master among
{5, 3, 9}; the node holding id 5 does not. -/
theorem elect_master_spec_witness :
    elect_master 3 [5, 9] = true ∧ elect_master 5 [3, 9] = false :=
  ⟨elect_master_spec.2.1, elect_master_spec.2.2.1⟩
